import Mathlib

/-!
Shallow embedding of the eco_server Flask application (src/app.py).

The application is a JSON-over-HTTP service: five SQLAlchemy row types
(User, Category, Product, BlogPost, Comment), two authentication guards
(token_required, admin_required) built on PyJWT bearer tokens, and
fourteen route handlers.  Each handler is translated here as a pure
function from the database state and the request data to a response and
a new database state.

Modelling conventions:
* Machine integers and SQL integer columns are Nat / Int.  The price
  column is SQL Float, but the code never computes with it (pure
  pass-through from request JSON to the row and back), so it is
  modelled as Int, which suffices for the sign-related claims.
* A JSON request body is modelled per endpoint as a structure of
  Option fields: `some v` means the key is present with value v.
  Python's `data['k']` on an absent key raises KeyError, which Flask
  turns into an HTTP 500; this is the `Resp.err` outcome.
* Clock: `now : Nat` is the current UTC time in seconds, used both for
  token expiry (datetime.utcnow) and comment timestamps.
* The JWT string itself is opaque; a presented token is modelled as
  either a payload correctly signed with the server secret
  (`Token.valid`) or anything jwt.decode rejects (`Token.malformed`).
* Database constraints (unique columns, foreign keys) are enforced by
  the out-of-scope storage engine; a commit that violates them raises
  an IntegrityError, again an unhandled exception (`Resp.err`).
-/

namespace EcoServer

/-- JSON values appearing in responses.  `tok` renders the opaque
signed JWT string by the payload it certifies. -/
inductive Json where
  | str (s : String)
  | int (n : Int)
  | bool (b : Bool)
  | arr (elems : List Json)
  | obj (fields : List (String × Json))
  | null
  | tok (user_id : Nat) (exp : Nat)

/-- Response body `{"message": m}`, the shape `jsonify({"message": ...})` builds. -/
def jmsg (m : String) : Json := .obj [("message", .str m)]

/-- Json object field lookup (first occurrence of the key, if any). -/
def jsonLookup (fields : List (String × Json)) (k : String) : Option Json :=
  (fields.find? (fun f => f.1 == k)).map (fun f => f.2)

/-- Whether a Json object carries a given key. -/
def hasKey (j : Json) (k : String) : Bool :=
  match j with
  | .obj fields => fields.any (fun f => f.1 == k)
  | _ => false

/-- Row of the `user` table (src/app.py, class User). -/
structure User where
  id : Nat
  email : String
  username : String
  password : String
  is_admin : Bool
deriving DecidableEq

/-- Row of the `category` table (src/app.py, class Category). -/
structure Category where
  id : Nat
  name : String
deriving DecidableEq

/-- Row of the `product` table (src/app.py, class Product).  The price
column is Float in the source but never computed with, so Int suffices. -/
structure Product where
  id : Nat
  name : String
  description : String
  price : Int
  stock_quantity : Int
  image_url : Option String
  category_id : Nat
deriving DecidableEq

/-- Row of the `blog_post` table (src/app.py, class BlogPost). -/
structure BlogPost where
  id : Nat
  title : String
  excerpt : String
  content : String
  date : String
  author : String
  read_time : String
  image : String
  category : String
  tags : List String
deriving DecidableEq

/-- Row of the `comment` table (src/app.py, class Comment);
`created_at` is UTC seconds. -/
structure Comment where
  id : Nat
  content : String
  created_at : Nat
  post_id : Nat
  user_id : Nat
  author : String
deriving DecidableEq

/-- The whole relational state. -/
structure DB where
  users : List User
  categories : List Category
  products : List Product
  blog_posts : List BlogPost
  comments : List Comment

/-- Fresh autoincrement primary key: one more than the largest id in use. -/
def nextId (ids : List Nat) : Nat := ids.foldr max 0 + 1

/-- Payload `{user_id, exp}` of a server-signed JWT. -/
structure TokenPayload where
  user_id : Nat
  exp : Nat
deriving DecidableEq

/-- A token string as presented by a client: either correctly signed by
the server secret with a well-formed payload, or anything `jwt.decode`
rejects (bad signature, garbage, wrong algorithm, missing claims). -/
inductive Token where
  | valid (payload : TokenPayload)
  | malformed
deriving DecidableEq

/-- The Authorization request header.  `noSpace` is a present header
with no space in it, so `token.split(" ")[1]` raises IndexError inside
the guard's try block. -/
inductive AuthHeader where
  | missing
  | noSpace
  | bearer (t : Token)
deriving DecidableEq

/-- Token issuance (register and login both run
`jwt.encode({'user_id': id, 'exp': datetime.utcnow() + timedelta(hours=24)}, SECRET_KEY)`):
the payload binds the user id and expires 24 hours after `now`. -/
def issueToken (user_id : Nat) (now : Nat) : TokenPayload :=
  { user_id := user_id, exp := now + 24 * 3600 }

/-- Verification by the external `jwt.decode(token, SECRET_KEY, algorithms=["HS256"])`.
Signature or structural problems fail.  Modelled from the spec: the
expiry comparison is internal to the out-of-repository PyJWT library;
per the spec a token "verifies successfully for requests up to T+24h
and fails strictly after", i.e. decoding succeeds iff `now ≤ exp`. -/
def jwtDecode (t : Token) (now : Nat) : Option TokenPayload :=
  match t with
  | .malformed => none
  | .valid p => if p.exp < now then none else some p

/-- `User.query.get(uid)`: lookup by primary key, None when absent. -/
def findUserById (users : List User) (uid : Nat) : Option User :=
  users.find? (fun u => u.id == uid)

/-- Outcome of a request guard: an early JSON error response, or the
decorated handler is invoked with the resolved value. -/
inductive GuardResult (α : Type) where
  | reject (status : Nat) (msg : String)
  | pass (val : α)

/-- The `token_required` decorator (src/app.py lines 68-85).  Missing
header: 403 "Token is missing!".  Any exception while splitting the
header, decoding the token, or reading the payload: 403 "Token is
invalid!".  `User.query.get` returns None (no exception) for an unknown
user id, so the handler can be invoked with current_user = None. -/
def token_required (db : DB) (auth : AuthHeader) (now : Nat) : GuardResult (Option User) :=
  match auth with
  | .missing => .reject 403 "Token is missing!"
  | .noSpace => .reject 403 "Token is invalid!"
  | .bearer t =>
    match jwtDecode t now with
    | none => .reject 403 "Token is invalid!"
    | some p => .pass (findUserById db.users p.user_id)

/-- The `admin_required` decorator (src/app.py lines 87-108).  As above,
but additionally requires `current_user.is_admin`; when the bound user
does not exist, `current_user.is_admin` raises AttributeError inside the
try block, caught as 403 "Token is invalid!". -/
def admin_required (db : DB) (auth : AuthHeader) (now : Nat) : GuardResult User :=
  match auth with
  | .missing => .reject 403 "Token is missing!"
  | .noSpace => .reject 403 "Token is invalid!"
  | .bearer t =>
    match jwtDecode t now with
    | none => .reject 403 "Token is invalid!"
    | some p =>
      match findUserById db.users p.user_id with
      | none => .reject 403 "Token is invalid!"
      | some u => if u.is_admin then .pass u else .reject 403 "Admin privileges required!"

/-- An HTTP response: an explicit `jsonify(body), status` pair, or an
exception that escaped the handler, which Flask reports as HTTP 500. -/
inductive Resp where
  | http (status : Nat) (body : Json)
  | err

/-- Status code the client observes. -/
def statusOf : Resp → Nat
  | .http s _ => s
  | .err => 500

/-- Salted one-way hash computed by the external flask_bcrypt library
(`bcrypt.generate_password_hash(...).decode('utf-8')`).  The library is
outside this repository; the handlers only store its output and pass it
back to the verification routine, so it is modelled as an abstract
tagging function. -/
def bcryptHash (password : String) : String := "$2b$12$" ++ password

/-- `bcrypt.check_password_hash(stored, candidate)` of the external
flask_bcrypt library, modelled against `bcryptHash`. -/
def bcryptCheck (stored : String) (candidate : String) : Bool :=
  stored == bcryptHash candidate

/-- Serialization of a user in the register/login responses: exactly
the keys id, email, username, is_admin (the password hash is never
serialized). -/
def userJson (u : User) : Json :=
  .obj [("id", .int u.id), ("email", .str u.email),
        ("username", .str u.username), ("is_admin", .bool u.is_admin)]

/-- Optional text column serialization (`None` becomes JSON null). -/
def optStrJson : Option String → Json
  | none => .null
  | some s => .str s

/-- Lexicographic order on character sequences by code point: the
string comparison the storage engine's ORDER BY performs on text
columns (the date columns hold plain ASCII ISO dates). -/
def lexLe : List Char → List Char → Bool
  | [], _ => true
  | _ :: _, [] => false
  | a :: as, b :: bs =>
    if a.toNat < b.toNat then true
    else if b.toNat < a.toNat then false
    else lexLe as bs

/-- Value of one decimal digit character, if it is one. -/
def digitVal (c : Char) : Option Nat :=
  if 48 ≤ c.toNat then if c.toNat ≤ 57 then some (c.toNat - 48) else none else none

/-- Decimal reading of a character sequence; any non-digit fails. -/
def parseDec : List Char → Nat → Option Nat
  | [], acc => some acc
  | c :: cs, acc =>
    match digitVal c with
    | none => none
    | some d => parseDec cs (acc * 10 + d)

/-- Cast of the textual query parameter to the integer column type, as
the storage engine performs it when comparing `category_id` against a
bound string parameter; a non-numeric value fails the cast.  (The empty
string never reaches this cast: Python truthiness filters it out.) -/
def strToNat? (s : String) : Option Nat :=
  parseDec s.data 0

/-- JSON body of POST /auth/register; the handler reads email,
username, password with `data[...]` and is_admin with `data.get(...)`. -/
structure RegisterBody where
  email : Option String
  username : Option String
  password : Option String
  is_admin : Option Bool

/-- POST /auth/register (src/app.py lines 111-146).  Reads data['email']
(KeyError when absent), rejects a taken email with 400, then likewise
for username, hashes the password, inserts the user with
`is_admin = data.get('is_admin', False)`, issues a 24h token and
returns 201 with the user serialized sans password. -/
def register (db : DB) (now : Nat) (body : RegisterBody) : Resp × DB :=
  match body.email with
  | none => (.err, db)
  | some email =>
    if (db.users.find? (fun u => u.email == email)).isSome then
      (.http 400 (jmsg "Email already registered"), db)
    else
      match body.username with
      | none => (.err, db)
      | some username =>
        if (db.users.find? (fun u => u.username == username)).isSome then
          (.http 400 (jmsg "Username already taken"), db)
        else
          match body.password with
          | none => (.err, db)
          | some password =>
            let nu : User :=
              { id := nextId (db.users.map (fun u => u.id)),
                email := email, username := username,
                password := bcryptHash password,
                is_admin := body.is_admin.getD false }
            let tk := issueToken nu.id now
            (.http 201 (.obj [("message", .str "User registered successfully"),
                              ("token", .tok tk.user_id tk.exp),
                              ("user", userJson nu)]),
             { db with users := db.users ++ [nu] })

/-- JSON body of POST /auth/login. -/
structure LoginBody where
  email : Option String
  password : Option String

/-- POST /auth/login (src/app.py lines 148-170).  Reads data['email'];
`if user and bcrypt.check_password_hash(user.password, data['password'])`
short-circuits, so data['password'] is only read when the email matched
a user.  Success issues a fresh 24h token; otherwise 401. -/
def login (db : DB) (now : Nat) (body : LoginBody) : Resp × DB :=
  match body.email with
  | none => (.err, db)
  | some email =>
    match db.users.find? (fun u => u.email == email) with
    | none => (.http 401 (jmsg "Invalid credentials"), db)
    | some user =>
      match body.password with
      | none => (.err, db)
      | some password =>
        if bcryptCheck user.password password then
          let tk := issueToken user.id now
          (.http 200 (.obj [("message", .str "Login successful"),
                            ("token", .tok tk.user_id tk.exp),
                            ("user", userJson user)]),
           db)
        else
          (.http 401 (jmsg "Invalid credentials"), db)

/-- Serialization of one product joined with its category name
(`p.category.name` traverses the foreign key; a dangling reference
would make `p.category` None and the attribute access raise). -/
def productJson (db : DB) (p : Product) : Option Json :=
  (db.categories.find? (fun c => c.id == p.category_id)).map (fun c =>
    Json.obj [("id", .int p.id), ("name", .str p.name),
              ("description", .str p.description), ("price", .int p.price),
              ("stock_quantity", .int p.stock_quantity),
              ("image_url", optStrJson p.image_url),
              ("category_id", .int p.category_id),
              ("category_name", .str c.name)])

/-- Sequencing of fallible serializations of all rows in query order. -/
def optionMapM {α β : Type} (f : α → Option β) : List α → Option (List β)
  | [] => some []
  | x :: xs =>
    match f x, optionMapM f xs with
    | some y, some ys => some (y :: ys)
    | _, _ => none

/-- Serializes a product list; any dangling category reference escapes
as an exception (HTTP 500). -/
def productsResp (db : DB) (ps : List Product) : Resp :=
  match optionMapM (productJson db) ps with
  | none => .err
  | some js => .http 200 (.arr js)

/-- Row selection of GET /products (src/app.py lines 173-180).
`request.args.get('category_id')` yields a string; `if category_id:` is
Python truthiness, so an absent parameter and the empty string both
skip the filter.  A nonempty value is compared against the integer
category_id column: the storage engine casts the decimal string, and a
non-numeric value fails the cast (an exception, hence none here). -/
def selectedProducts (db : DB) (category_id : Option String) : Option (List Product) :=
  match category_id with
  | none => some db.products
  | some s =>
    if s = "" then some db.products
    else
      match strToNat? s with
      | none => none
      | some n => some (db.products.filter (fun p => p.category_id == n))

/-- GET /products (src/app.py lines 173-191). -/
def get_products (db : DB) (category_id : Option String) : Resp :=
  match selectedProducts db category_id with
  | none => .err
  | some ps => productsResp db ps

/-- GET /products/{id} (src/app.py lines 193-206): get_or_404. -/
def get_product (db : DB) (product_id : Nat) : Resp :=
  match db.products.find? (fun p => p.id == product_id) with
  | none => .http 404 .null
  | some p =>
    match productJson db p with
    | none => .err
    | some j => .http 200 j

/-- JSON body of POST /products. -/
structure ProductBody where
  name : Option String
  description : Option String
  price : Option Int
  stock_quantity : Option Int
  image_url : Option String
  category_id : Option Nat

/-- Serialization of the created product in the POST /products response
(no category join there). -/
def productCreatedJson (p : Product) : Json :=
  .obj [("id", .int p.id), ("name", .str p.name),
        ("description", .str p.description), ("price", .int p.price),
        ("stock_quantity", .int p.stock_quantity),
        ("image_url", optStrJson p.image_url),
        ("category_id", .int p.category_id)]

/-- POST /products handler body (src/app.py lines 208-236).  Required
fields are read with `data[...]` (KeyError when absent → 500),
image_url with `data.get` (optional).  No validation of price or
stock_quantity is performed.  The insert commits unconditionally; a
category_id that references no category violates the foreign key and
the commit raises (500). -/
def create_product (db : DB) (body : ProductBody) : Resp × DB :=
  match body.name with
  | none => (.err, db)
  | some name =>
  match body.description with
  | none => (.err, db)
  | some description =>
  match body.price with
  | none => (.err, db)
  | some price =>
  match body.stock_quantity with
  | none => (.err, db)
  | some stock_quantity =>
  match body.category_id with
  | none => (.err, db)
  | some category_id =>
  if (db.categories.find? (fun c => c.id == category_id)).isSome then
    let p : Product :=
      { id := nextId (db.products.map (fun q => q.id)),
        name := name, description := description, price := price,
        stock_quantity := stock_quantity, image_url := body.image_url,
        category_id := category_id }
    (.http 201 (.obj [("message", .str "Product created successfully"),
                      ("product", productCreatedJson p)]),
     { db with products := db.products ++ [p] })
  else
    (.err, db)

/-- GET /categories (src/app.py lines 239-245). -/
def get_categories (db : DB) : Resp :=
  .http 200 (.arr (db.categories.map (fun c =>
    Json.obj [("id", .int c.id), ("name", .str c.name)])))

/-- JSON body of POST /categories. -/
structure CategoryBody where
  name : Option String

/-- POST /categories handler body (src/app.py lines 247-265). -/
def create_category (db : DB) (body : CategoryBody) : Resp × DB :=
  match body.name with
  | none => (.err, db)
  | some name =>
    if (db.categories.find? (fun c => c.name == name)).isSome then
      (.http 400 (jmsg "Category already exists"), db)
    else
      let c : Category := { id := nextId (db.categories.map (fun d => d.id)), name := name }
      (.http 201 (.obj [("message", .str "Category created successfully"),
                        ("category", .obj [("id", .int c.id), ("name", .str c.name)])]),
       { db with categories := db.categories ++ [c] })

/-- Serialization of a blog post (camelCase readTime as in the code). -/
def postJson (p : BlogPost) : Json :=
  .obj [("id", .int p.id), ("title", .str p.title), ("excerpt", .str p.excerpt),
        ("content", .str p.content), ("date", .str p.date),
        ("author", .str p.author), ("readTime", .str p.read_time),
        ("image", .str p.image), ("category", .str p.category),
        ("tags", .arr (p.tags.map Json.str))]

/-- Descending date order used by GET /blog/posts:
`order_by(BlogPost.date.desc())` on the ISO date string column.
`dateGe a b` holds when b's date string is lexicographically at most
a's, i.e. a's date is the same or later. -/
def dateGe (a b : BlogPost) : Prop := lexLe b.date.data a.date.data = true

instance : DecidableRel dateGe := fun a b =>
  inferInstanceAs (Decidable (lexLe b.date.data a.date.data = true))

/-- Row selection of GET /blog/posts (src/app.py lines 268-281):
`if category:` and `if tag:` are Python truthiness, so an absent
parameter and the empty string both skip the corresponding filter;
a nonempty category filters by exact equality and a nonempty tag by
membership in the JSON tag array. -/
def blogFilter (db : DB) (category : Option String) (tag : Option String) : List BlogPost :=
  let q1 :=
    match category with
    | none => db.blog_posts
    | some c => if c = "" then db.blog_posts else db.blog_posts.filter (fun p => p.category == c)
  match tag with
  | none => q1
  | some t => if t = "" then q1 else q1.filter (fun p => p.tags.contains t)

/-- GET /blog/posts (src/app.py lines 268-294): filtered rows sorted by
date descending, then serialized. -/
def get_blog_posts (db : DB) (category : Option String) (tag : Option String) : Resp :=
  .http 200 (.arr ((List.insertionSort dateGe (blogFilter db category tag)).map postJson))

/-- GET /blog/posts/{id} (src/app.py lines 296-311): get_or_404. -/
def get_blog_post (db : DB) (post_id : Nat) : Resp :=
  match db.blog_posts.find? (fun p => p.id == post_id) with
  | none => .http 404 .null
  | some p => .http 200 (postJson p)

/-- JSON body of POST /blog/posts. -/
structure BlogPostBody where
  title : Option String
  excerpt : Option String
  content : Option String
  date : Option String
  author : Option String
  readTime : Option String
  image : Option String
  category : Option String
  tags : Option (List String)

/-- POST /blog/posts handler body (src/app.py lines 313-347): every
field is read with `data[...]`, then the row is inserted
unconditionally. -/
def create_blog_post (db : DB) (body : BlogPostBody) : Resp × DB :=
  match body.title with
  | none => (.err, db)
  | some title =>
  match body.excerpt with
  | none => (.err, db)
  | some excerpt =>
  match body.content with
  | none => (.err, db)
  | some content =>
  match body.date with
  | none => (.err, db)
  | some date =>
  match body.author with
  | none => (.err, db)
  | some author =>
  match body.readTime with
  | none => (.err, db)
  | some read_time =>
  match body.image with
  | none => (.err, db)
  | some image =>
  match body.category with
  | none => (.err, db)
  | some category =>
  match body.tags with
  | none => (.err, db)
  | some tags =>
    let p : BlogPost :=
      { id := nextId (db.blog_posts.map (fun q => q.id)),
        title := title, excerpt := excerpt, content := content, date := date,
        author := author, read_time := read_time, image := image,
        category := category, tags := tags }
    (.http 201 (.obj [("message", .str "Blog post created successfully"),
                      ("post", postJson p)]),
     { db with blog_posts := db.blog_posts ++ [p] })

/-- GET /blog/categories (src/app.py lines 349-352): distinct category
values in first-appearance order. -/
def get_blog_categories (db : DB) : Resp :=
  .http 200 (.arr (((db.blog_posts.map (fun p => p.category)).dedup).map Json.str))

/-- GET /blog/tags (src/app.py lines 354-360): union of all tag lists
as a Python set; the set is unordered, modelled as deduplicated
concatenation. -/
def get_blog_tags (db : DB) : Resp :=
  .http 200 (.arr ((((db.blog_posts.map (fun p => p.tags)).flatten).dedup).map Json.str))

/-- Descending creation-time order used by GET /blog/posts/{id}/comments. -/
def createdGe (a b : Comment) : Prop := b.created_at ≤ a.created_at

instance : DecidableRel createdGe := fun a b => inferInstanceAs (Decidable (b.created_at ≤ a.created_at))

instance : IsTotal Comment createdGe := ⟨fun a b => Nat.le_total b.created_at a.created_at⟩

instance : IsTrans Comment createdGe := ⟨fun _ _ _ hab hbc => le_trans hbc hab⟩

/-- Serialization of a comment. -/
def commentJson (c : Comment) : Json :=
  .obj [("id", .int c.id), ("content", .str c.content),
        ("created_at", .int c.created_at), ("author", .str c.author)]

/-- GET /blog/posts/{id}/comments (src/app.py lines 362-370). -/
def get_post_comments (db : DB) (post_id : Nat) : Resp :=
  .http 200 (.arr ((List.insertionSort createdGe
    (db.comments.filter (fun c => c.post_id == post_id))).map commentJson))

/-- JSON body of POST /blog/posts/{id}/comments. -/
structure CommentBody where
  content : Option String

/-- POST /blog/posts/{id}/comments handler body (src/app.py lines
372-395), invoked by token_required with the resolved current_user.
`if not data.get('content')` rejects an absent or empty content with
400 before anything else.  Then `current_user.id` is read: when the
token named no existing user, current_user is None and the attribute
access raises (500).  The insert stamps created_at and denormalizes the
author's username; a post_id referencing no blog post violates the
foreign key at commit (500). -/
def create_comment (db : DB) (now : Nat) (current_user : Option User)
    (post_id : Nat) (body : CommentBody) : Resp × DB :=
  match body.content with
  | none => (.http 400 (jmsg "Comment content is required"), db)
  | some content =>
    if content = "" then (.http 400 (jmsg "Comment content is required"), db)
    else
      match current_user with
      | none => (.err, db)
      | some u =>
        if (db.blog_posts.find? (fun p => p.id == post_id)).isSome then
          let c : Comment :=
            { id := nextId (db.comments.map (fun d => d.id)),
              content := content, created_at := now, post_id := post_id,
              user_id := u.id, author := u.username }
          (.http 201 (commentJson c), { db with comments := db.comments ++ [c] })
        else
          (.err, db)

/-! Route-level composition: every exposed endpoint as one function of
the database state and the full request. -/

/-- POST /auth/register. -/
def route_register (db : DB) (now : Nat) (body : RegisterBody) : Resp × DB :=
  register db now body

/-- POST /auth/login. -/
def route_login (db : DB) (now : Nat) (body : LoginBody) : Resp × DB :=
  login db now body

/-- GET /products. -/
def route_get_products (db : DB) (category_id : Option String) : Resp × DB :=
  (get_products db category_id, db)

/-- GET /products/{id}. -/
def route_get_product (db : DB) (product_id : Nat) : Resp × DB :=
  (get_product db product_id, db)

/-- POST /products: admin_required then the handler. -/
def route_create_product (db : DB) (auth : AuthHeader) (now : Nat)
    (body : ProductBody) : Resp × DB :=
  match admin_required db auth now with
  | .reject s m => (.http s (jmsg m), db)
  | .pass _ => create_product db body

/-- GET /categories. -/
def route_get_categories (db : DB) : Resp × DB :=
  (get_categories db, db)

/-- POST /categories: admin_required then the handler. -/
def route_create_category (db : DB) (auth : AuthHeader) (now : Nat)
    (body : CategoryBody) : Resp × DB :=
  match admin_required db auth now with
  | .reject s m => (.http s (jmsg m), db)
  | .pass _ => create_category db body

/-- GET /blog/posts. -/
def route_get_blog_posts (db : DB) (category : Option String) (tag : Option String) : Resp × DB :=
  (get_blog_posts db category tag, db)

/-- GET /blog/posts/{id}. -/
def route_get_blog_post (db : DB) (post_id : Nat) : Resp × DB :=
  (get_blog_post db post_id, db)

/-- POST /blog/posts: admin_required then the handler. -/
def route_create_blog_post (db : DB) (auth : AuthHeader) (now : Nat)
    (body : BlogPostBody) : Resp × DB :=
  match admin_required db auth now with
  | .reject s m => (.http s (jmsg m), db)
  | .pass _ => create_blog_post db body

/-- GET /blog/categories. -/
def route_get_blog_categories (db : DB) : Resp × DB :=
  (get_blog_categories db, db)

/-- GET /blog/tags. -/
def route_get_blog_tags (db : DB) : Resp × DB :=
  (get_blog_tags db, db)

/-- GET /blog/posts/{id}/comments. -/
def route_get_post_comments (db : DB) (post_id : Nat) : Resp × DB :=
  (get_post_comments db post_id, db)

/-- POST /blog/posts/{id}/comments: token_required then the handler. -/
def route_create_comment (db : DB) (auth : AuthHeader) (now : Nat)
    (post_id : Nat) (body : CommentBody) : Resp × DB :=
  match token_required db auth now with
  | .reject s m => (.http s (jmsg m), db)
  | .pass u => create_comment db now u post_id body

/-! Derived notions the theorems are phrased with. -/

/-- One state extends another when every table keeps all its existing
rows, unchanged and in place, and at most appends new ones. -/
def dbExtends (old new : DB) : Prop :=
  (∃ t, new.users = old.users ++ t) ∧
  (∃ t, new.categories = old.categories ++ t) ∧
  (∃ t, new.products = old.products ++ t) ∧
  (∃ t, new.blog_posts = old.blog_posts ++ t) ∧
  (∃ t, new.comments = old.comments ++ t)

/-- A request to an admin-guarded route is properly authorized when the
Authorization header carries a server-signed, unexpired token whose
user id resolves to an existing user with the admin flag set. -/
def isValidAdminAuth (db : DB) (auth : AuthHeader) (now : Nat) : Prop :=
  ∃ p u, auth = .bearer (.valid p) ∧ now ≤ p.exp ∧
    findUserById db.users p.user_id = some u ∧ u.is_admin = true

/-- A request passes the plain authentication gate when the
Authorization header carries a server-signed, unexpired token
(the bound user need not exist for `token_required`). -/
def isAuthenticated (auth : AuthHeader) (now : Nat) : Prop :=
  ∃ p, auth = .bearer (.valid p) ∧ now ≤ p.exp

/-! Concrete fixture state used to instantiate the theorems. -/

/-- Fixture: an administrator account. -/
def adminUser : User :=
  { id := 1, email := "admin@eco.com", username := "root",
    password := bcryptHash "adminpw", is_admin := true }

/-- Fixture: a non-admin account. -/
def bobUser : User :=
  { id := 2, email := "bob@eco.com", username := "bob",
    password := bcryptHash "bobpw", is_admin := false }

/-- Fixture: a product category. -/
def livingRoom : Category := { id := 1, name := "Living Room" }

/-- Fixture: a product in that category. -/
def sofa : Product :=
  { id := 1, name := "Modern Sectional Sofa", description := "A spacious sofa",
    price := 1299, stock_quantity := 15, image_url := none, category_id := 1 }

/-- Fixture: the newer of two blog posts. -/
def post20 : BlogPost :=
  { id := 1, title := "Sustainable Living Tips", excerpt := "Simple ways",
    content := "Living sustainably", date := "2024-03-20", author := "Emma Green",
    read_time := "5 min", image := "img1", category := "Lifestyle",
    tags := ["sustainability", "lifestyle"] }

/-- Fixture: the older of two blog posts. -/
def post10 : BlogPost :=
  { id := 5, title := "Zero Waste Living Guide", excerpt := "A guide",
    content := "Transitioning", date := "2024-03-10", author := "Lisa Chang",
    read_time := "6 min", image := "img2", category := "Lifestyle",
    tags := ["zero waste"] }

/-- Fixture database with an admin, a plain user, one category, one
product and two posts. -/
def dbEx : DB :=
  { users := [adminUser, bobUser], categories := [livingRoom],
    products := [sofa], blog_posts := [post20, post10], comments := [] }

/-- Fixture payload of a token for the admin account, far from expiry. -/
def adminTok : TokenPayload := { user_id := 1, exp := 1000 }

/-- Fixture payload of a token for the non-admin account. -/
def bobTok : TokenPayload := { user_id := 2, exp := 1000 }

/-- The user row built by a successful registration: fresh id, hashed
password, and `is_admin = data.get('is_admin', False)`. -/
def newUser (db : DB) (email username password : String) (adm : Option Bool) : User :=
  { id := nextId (db.users.map (fun u => u.id)), email := email, username := username,
    password := bcryptHash password, is_admin := adm.getD false }

/-! General helper lemmas. -/

/-- Every element is bounded by the running maximum. -/
theorem le_foldr_max {ids : List Nat} {i : Nat} (h : i ∈ ids) : i ≤ ids.foldr max 0 := by
  induction ids with
  | nil => cases h
  | cons x xs ih =>
    simp only [List.foldr_cons]
    rcases List.mem_cons.mp h with rfl | hx
    · exact Nat.le_max_left _ _
    · exact le_trans (ih hx) (Nat.le_max_right _ _)

/-- The fresh autoincrement id is strictly larger than every id in use. -/
theorem lt_nextId {ids : List Nat} {i : Nat} (h : i ∈ ids) : i < nextId ids := by
  have := le_foldr_max h
  unfold nextId
  omega

/-- Serializing rows whose serialization never fails yields exactly the
mapped list. -/
theorem optionMapM_eq_map {α β : Type} (f : α → Option β) (d : β) :
    ∀ l : List α, (∀ a ∈ l, (f a).isSome) →
      optionMapM f l = some (l.map (fun a => (f a).getD d)) := by
  intro l
  induction l with
  | nil => intro _; rfl
  | cons x xs ih =>
    intro h
    obtain ⟨y, hy⟩ := Option.isSome_iff_exists.mp (h x (List.mem_cons_self x xs))
    have hxs := ih (fun a ha => h a (List.mem_cons_of_mem x ha))
    simp [optionMapM, hy, hxs]

/-- Extension is reflexive: an untouched state extends itself. -/
theorem dbExtends_refl (db : DB) : dbExtends db db :=
  ⟨⟨[], by simp⟩, ⟨[], by simp⟩, ⟨[], by simp⟩, ⟨[], by simp⟩, ⟨[], by simp⟩⟩

/-- Appending one user row is an extension. -/
theorem dbExtends_addUser (db : DB) (x : User) :
    dbExtends db { db with users := db.users ++ [x] } :=
  ⟨⟨[x], rfl⟩, ⟨[], by simp⟩, ⟨[], by simp⟩, ⟨[], by simp⟩, ⟨[], by simp⟩⟩

/-- Appending one category row is an extension. -/
theorem dbExtends_addCategory (db : DB) (x : Category) :
    dbExtends db { db with categories := db.categories ++ [x] } :=
  ⟨⟨[], by simp⟩, ⟨[x], rfl⟩, ⟨[], by simp⟩, ⟨[], by simp⟩, ⟨[], by simp⟩⟩

/-- Appending one product row is an extension. -/
theorem dbExtends_addProduct (db : DB) (x : Product) :
    dbExtends db { db with products := db.products ++ [x] } :=
  ⟨⟨[], by simp⟩, ⟨[], by simp⟩, ⟨[x], rfl⟩, ⟨[], by simp⟩, ⟨[], by simp⟩⟩

/-- Appending one blog post row is an extension. -/
theorem dbExtends_addPost (db : DB) (x : BlogPost) :
    dbExtends db { db with blog_posts := db.blog_posts ++ [x] } :=
  ⟨⟨[], by simp⟩, ⟨[], by simp⟩, ⟨[], by simp⟩, ⟨[x], rfl⟩, ⟨[], by simp⟩⟩

/-- Appending one comment row is an extension. -/
theorem dbExtends_addComment (db : DB) (x : Comment) :
    dbExtends db { db with comments := db.comments ++ [x] } :=
  ⟨⟨[], by simp⟩, ⟨[], by simp⟩, ⟨[], by simp⟩, ⟨[], by simp⟩, ⟨[x], rfl⟩⟩

/-- A valid unexpired token decodes to its payload. -/
theorem jwtDecode_valid {p : TokenPayload} {now : Nat} (h : now ≤ p.exp) :
    jwtDecode (.valid p) now = some p := by
  simp only [jwtDecode]
  rw [if_neg (Nat.not_lt.mpr h)]

/-- An expired token fails to decode. -/
theorem jwtDecode_expired {p : TokenPayload} {now : Nat} (h : p.exp < now) :
    jwtDecode (.valid p) now = none := by
  simp only [jwtDecode]
  rw [if_pos h]

/-!
C3.  "For every token issued at time T (by register or login), the token
encodes the issuing user's id and an expiry of exactly T plus 24 hours,
and verification of that token succeeds for any request time up to
T+24h and fails strictly after T+24h."

Both `register` and `login` build their token as `issueToken uid now`
(definitionally), so the claim reduces to the issuance/verification
contract below.  The expiry comparison itself happens inside the
external PyJWT library and is modelled from the spec (`jwtDecode`).
-/

/-- C3: a token issued at time T carries the issuing user's id and the
expiry T + 24h; it decodes successfully, and passes the authentication
gate, exactly for request times t ≤ T + 24h, and fails strictly after. -/
theorem token_lifetime (db : DB) (uid T t : Nat) :
    (issueToken uid T).user_id = uid ∧
    (issueToken uid T).exp = T + 24 * 3600 ∧
    (jwtDecode (.valid (issueToken uid T)) t = some (issueToken uid T) ↔ t ≤ T + 24 * 3600) ∧
    ((∃ u, token_required db (.bearer (.valid (issueToken uid T))) t = .pass u) ↔
      t ≤ T + 24 * 3600) := by
  refine ⟨rfl, rfl, ?_, ?_⟩
  · constructor
    · intro h
      by_contra hc
      rw [jwtDecode_expired (by simp only [issueToken]; omega)] at h
      cases h
    · intro h
      exact jwtDecode_valid (by simp only [issueToken]; omega)
  · constructor
    · rintro ⟨u, hu⟩
      by_contra hc
      simp only [token_required] at hu
      rw [jwtDecode_expired (by simp only [issueToken]; omega)] at hu
      cases hu
    · intro h
      refine ⟨findUserById db.users uid, ?_⟩
      simp only [token_required]
      rw [jwtDecode_valid (by simp only [issueToken]; omega)]
      rfl

/-- Witness for C3 at a concrete boundary: a token issued at T = 0 for
user 7 expires at 86400; it still verifies at t = 86400 and its payload
is exactly as claimed. -/
theorem token_lifetime_witness :
    (issueToken 7 0).user_id = 7 ∧
    (issueToken 7 0).exp = 0 + 24 * 3600 ∧
    (jwtDecode (.valid (issueToken 7 0)) 86400 = some (issueToken 7 0) ↔ 86400 ≤ 0 + 24 * 3600) ∧
    ((∃ u, token_required dbEx (.bearer (.valid (issueToken 7 0))) 86400 = .pass u) ↔
      86400 ≤ 0 + 24 * 3600) :=
  token_lifetime dbEx 7 0 86400

/-!
C2.  "For every request to an admin-guarded route (POST /products,
POST /categories, POST /blog/posts): if the Authorization header is
missing, or the token is malformed, expired, or bound to a user whose
is_admin flag is false (or to no existing user), the response status is
403 and the handler body is not executed; if the token is valid and the
bound user has is_admin = true, the guard passes and the handler runs."
-/

/-- When the admin guard rejects, each admin route answers 403 with the
guard's message and leaves the state untouched. -/
theorem admin_routes_reject {db : DB} {auth : AuthHeader} {now : Nat} {m : String}
    (h : admin_required db auth now = .reject 403 m) :
    (∀ pb, route_create_product db auth now pb = (.http 403 (jmsg m), db)) ∧
    (∀ cb, route_create_category db auth now cb = (.http 403 (jmsg m), db)) ∧
    (∀ bb, route_create_blog_post db auth now bb = (.http 403 (jmsg m), db)) := by
  refine ⟨fun pb => ?_, fun cb => ?_, fun bb => ?_⟩ <;>
    simp only [route_create_product, route_create_category, route_create_blog_post, h]

/-- C2: an admin-guarded request with a well-signed unexpired token
bound to an existing admin user passes the guard and the three admin
routes run their handler; in every other case (missing header,
malformed token, expired token, unknown user id, non-admin user) the
guard rejects with status 403 and the three admin routes answer 403
without executing the handler or touching the state. -/
theorem admin_guard_contract (db : DB) (auth : AuthHeader) (now : Nat) :
    (isValidAdminAuth db auth now →
      ∃ u, admin_required db auth now = .pass u ∧ u.is_admin = true ∧
        (∀ pb, route_create_product db auth now pb = create_product db pb) ∧
        (∀ cb, route_create_category db auth now cb = create_category db cb) ∧
        (∀ bb, route_create_blog_post db auth now bb = create_blog_post db bb)) ∧
    (¬ isValidAdminAuth db auth now →
      ∃ m, admin_required db auth now = .reject 403 m ∧
        (∀ pb, route_create_product db auth now pb = (.http 403 (jmsg m), db)) ∧
        (∀ cb, route_create_category db auth now cb = (.http 403 (jmsg m), db)) ∧
        (∀ bb, route_create_blog_post db auth now bb = (.http 403 (jmsg m), db))) := by
  constructor
  · rintro ⟨p, u, rfl, hexp, hfind, hadmin⟩
    have hguard : admin_required db (.bearer (.valid p)) now = .pass u := by
      simp only [admin_required]
      rw [jwtDecode_valid hexp]
      simp [hfind, hadmin]
    refine ⟨u, hguard, hadmin, fun pb => ?_, fun cb => ?_, fun bb => ?_⟩ <;>
      simp only [route_create_product, route_create_category, route_create_blog_post, hguard]
  · intro hnot
    have step : ∃ m, admin_required db auth now = .reject 403 m := by
      cases auth with
      | missing => exact ⟨"Token is missing!", rfl⟩
      | noSpace => exact ⟨"Token is invalid!", rfl⟩
      | bearer t =>
        cases t with
        | malformed => exact ⟨"Token is invalid!", rfl⟩
        | valid p =>
          by_cases hexp : p.exp < now
          · refine ⟨"Token is invalid!", ?_⟩
            simp only [admin_required]
            rw [jwtDecode_expired hexp]
          · have hle := Nat.not_lt.mp hexp
            cases hfind : findUserById db.users p.user_id with
            | none =>
              refine ⟨"Token is invalid!", ?_⟩
              simp only [admin_required]
              rw [jwtDecode_valid hle]
              simp [hfind]
            | some u =>
              cases hadm : u.is_admin with
              | true => exact absurd ⟨p, u, rfl, hle, hfind, hadm⟩ hnot
              | false =>
                refine ⟨"Admin privileges required!", ?_⟩
                simp only [admin_required]
                rw [jwtDecode_valid hle]
                simp [hfind, hadm]
    obtain ⟨m, hm⟩ := step
    obtain ⟨h1, h2, h3⟩ := admin_routes_reject hm
    exact ⟨m, hm, h1, h2, h3⟩

/-- Witness for C2: on the fixture state, a valid admin token passes
the guard, and a request without an Authorization header is answered
403 by POST /products with the state untouched. -/
theorem admin_guard_contract_witness :
    (∃ u, admin_required dbEx (.bearer (.valid adminTok)) 0 = .pass u ∧ u.is_admin = true) ∧
    (∃ m, admin_required dbEx .missing 0 = .reject 403 m ∧
      route_create_product dbEx .missing 0 ⟨none, none, none, none, none, none⟩ =
        (.http 403 (jmsg m), dbEx)) := by
  constructor
  · obtain ⟨u, hu, ha, -, -, -⟩ := (admin_guard_contract dbEx (.bearer (.valid adminTok)) 0).1
      ⟨adminTok, adminUser, rfl, by decide, rfl, rfl⟩
    exact ⟨u, hu, ha⟩
  · obtain ⟨m, hm, hp, -, -⟩ := (admin_guard_contract dbEx .missing 0).2
      (by rintro ⟨p, u, h, -⟩; cases h)
    exact ⟨m, hm, hp _⟩

/-!
C1.  "For every POST /blog/posts/{id}/comments request whose JSON body
has content equal to the empty string or has no content field, the
response status is 400, regardless of whether the request carries a
valid, invalid, expired, or missing Authorization token."

The claim fails on the code: the `token_required` decorator runs before
the handler, so a missing, malformed or expired token is answered 403
and the content check is never reached.  The 400 is only produced once
the guard passes.
-/

/-- C1 counterexample: a comment request with content "" and no
Authorization header is answered 403 "Token is missing!", not 400. -/
theorem create_comment_missing_token_403 :
    route_create_comment dbEx .missing 0 1 ⟨some ""⟩ =
      (.http 403 (jmsg "Token is missing!"), dbEx) ∧
    statusOf (route_create_comment dbEx .missing 0 1 ⟨some ""⟩).1 ≠ 400 :=
  ⟨rfl, by decide⟩

/-- C1 (amended): a comment request whose body has empty or absent
content is answered 400 whenever the Authorization header carries a
well-signed unexpired token (even one bound to no existing user), with
the state untouched; with a missing, malformed or expired token the
guard answers 403 first. -/
theorem create_comment_empty_content_400 (db : DB) (auth : AuthHeader) (now pid : Nat)
    (body : CommentBody) (hc : body.content = none ∨ body.content = some "") :
    (isAuthenticated auth now →
      route_create_comment db auth now pid body =
        (.http 400 (jmsg "Comment content is required"), db)) ∧
    (¬ isAuthenticated auth now →
      ∃ m, route_create_comment db auth now pid body = (.http 403 (jmsg m), db)) := by
  have hbody : ∀ u, create_comment db now u pid body =
      (.http 400 (jmsg "Comment content is required"), db) := by
    intro u
    rcases hc with h | h <;> simp [create_comment, h]
  constructor
  · rintro ⟨p, rfl, hexp⟩
    simp only [route_create_comment, token_required]
    rw [jwtDecode_valid hexp]
    exact hbody _
  · intro hnot
    cases auth with
    | missing => exact ⟨"Token is missing!", rfl⟩
    | noSpace => exact ⟨"Token is invalid!", rfl⟩
    | bearer t =>
      cases t with
      | malformed => exact ⟨"Token is invalid!", rfl⟩
      | valid p =>
        by_cases hexp : p.exp < now
        · refine ⟨"Token is invalid!", ?_⟩
          simp only [route_create_comment, token_required]
          rw [jwtDecode_expired hexp]
        · exact absurd ⟨p, rfl, Nat.not_lt.mp hexp⟩ hnot

/-- Witness for C1 (amended): with a valid token for the non-admin
fixture user, an empty-content comment request on the fixture state is
answered 400. -/
theorem create_comment_empty_content_400_witness :
    route_create_comment dbEx (.bearer (.valid bobTok)) 0 1 ⟨some ""⟩ =
      (.http 400 (jmsg "Comment content is required"), dbEx) :=
  (create_comment_empty_content_400 dbEx (.bearer (.valid bobTok)) 0 1 ⟨some ""⟩
    (Or.inr rfl)).1 ⟨bobTok, rfl, by decide⟩

/-- The admin guard passes for a well-signed unexpired token bound to
an existing admin user. -/
theorem admin_required_pass {db : DB} {p : TokenPayload} {now : Nat} {u : User}
    (hexp : now ≤ p.exp) (hfind : findUserById db.users p.user_id = some u)
    (hadmin : u.is_admin = true) :
    admin_required db (.bearer (.valid p)) now = .pass u := by
  simp only [admin_required]
  rw [jwtDecode_valid hexp]
  simp [hfind, hadmin]

/-- Successful registration: when every required field is present and
neither the email nor the username is taken, `register` answers 201
with a fresh token and the created user (serialized sans password), and
appends exactly that user row. -/
theorem register_success (db : DB) (now : Nat) (email username password : String)
    (adm : Option Bool)
    (he : ∀ u ∈ db.users, u.email ≠ email)
    (hu : ∀ u ∈ db.users, u.username ≠ username) :
    register db now ⟨some email, some username, some password, adm⟩ =
      (.http 201 (.obj [("message", .str "User registered successfully"),
                        ("token", .tok (newUser db email username password adm).id
                                       (now + 24 * 3600)),
                        ("user", userJson (newUser db email username password adm))]),
       { db with users := db.users ++ [newUser db email username password adm] }) := by
  have hfe : db.users.find? (fun u => u.email == email) = none :=
    List.find?_eq_none.mpr (fun x hx => by simp [he x hx])
  have hfu : db.users.find? (fun u => u.username == username) = none :=
    List.find?_eq_none.mpr (fun x hx => by simp [hu x hx])
  simp [register, hfe, hfu, newUser, issueToken]

/-- The freshly inserted user row is found by its id in the extended
user table (its id is strictly larger than every existing id). -/
theorem find_newUser (db : DB) (email username password : String) (adm : Option Bool) :
    findUserById (db.users ++ [newUser db email username password adm])
        (newUser db email username password adm).id
      = some (newUser db email username password adm) := by
  unfold findUserById
  rw [List.find?_append]
  have hnone : db.users.find?
      (fun u => u.id == (newUser db email username password adm).id) = none := by
    apply List.find?_eq_none.mpr
    intro x hx
    have hlt : x.id < nextId (db.users.map (fun u => u.id)) :=
      lt_nextId (List.mem_map_of_mem (fun u => u.id) hx)
    simp only [newUser, beq_iff_eq]
    omega
  rw [hnone]
  simp

/-!
C4.  "For every unauthenticated POST /auth/register request whose JSON
body includes is_admin = true (and whose email and username are not yet
taken), the created User row has is_admin = true, so the caller obtains
a user that passes the admin guard without presenting any prior
credentials."

The handler reads `is_admin = data.get('is_admin', False)` straight
from the unauthenticated request body, so this privilege escalation is
exactly what the code does.
-/

/-- C4: registering with is_admin = true and fresh email/username
creates a user row with the admin flag set (status 201), and the token
issued for that user immediately passes the admin guard on the
resulting state. -/
theorem register_admin_escalation (db : DB) (now : Nat) (email username password : String)
    (he : ∀ u ∈ db.users, u.email ≠ email)
    (hu : ∀ u ∈ db.users, u.username ≠ username) :
    ∃ nu : User,
      (register db now ⟨some email, some username, some password, some true⟩).2.users
          = db.users ++ [nu] ∧
      statusOf (register db now ⟨some email, some username, some password, some true⟩).1 = 201 ∧
      nu.is_admin = true ∧
      admin_required (register db now ⟨some email, some username, some password, some true⟩).2
          (.bearer (.valid (issueToken nu.id now))) now = .pass nu := by
  have hs := register_success db now email username password (some true) he hu
  refine ⟨newUser db email username password (some true), ?_, ?_, rfl, ?_⟩
  · rw [hs]
  · rw [hs]
    rfl
  · rw [hs]
    exact admin_required_pass (by simp [issueToken])
      (find_newUser db email username password (some true)) rfl

/-- Witness for C4: on the fixture state, registering "eve" with
is_admin = true yields a 201, an admin row, and a token that passes the
admin guard. -/
theorem register_admin_escalation_witness :
    ∃ nu : User,
      (register dbEx 0 ⟨some "eve@eco.com", some "eve", some "pw", some true⟩).2.users
          = dbEx.users ++ [nu] ∧
      statusOf (register dbEx 0 ⟨some "eve@eco.com", some "eve", some "pw", some true⟩).1 = 201 ∧
      nu.is_admin = true ∧
      admin_required (register dbEx 0 ⟨some "eve@eco.com", some "eve", some "pw", some true⟩).2
          (.bearer (.valid (issueToken nu.id 0))) 0 = .pass nu :=
  register_admin_escalation dbEx 0 "eve@eco.com" "eve" "pw" (by decide) (by decide)

/-!
C5.  "For every POST /auth/register request: if a user with the given
email or the given username already exists, the response status is 400
and no new User row is added (state unchanged on conflict); otherwise a
new User row is stored with the password replaced by a salted one-way
hash, the response status is 201, and the returned user object contains
no password or password-hash field."

The hash itself is computed by the external flask_bcrypt library
(modelled abstractly as `bcryptHash`); what is proved is that the
stored row carries that hash, never the plaintext, and that the
serialized user has exactly the keys id, email, username, is_admin.
-/

/-- C5: registration answers 400 leaving the state unchanged on an
email conflict, 400 unchanged on a username conflict, and otherwise
appends exactly one user row whose password field is the bcrypt hash of
the submitted plaintext, answering 201 with a user object that has no
"password" (or "password_hash") key. -/
theorem register_contract (db : DB) (now : Nat) (body : RegisterBody)
    (email username password : String)
    (he : body.email = some email) (hu : body.username = some username)
    (hp : body.password = some password) :
    ((∃ u ∈ db.users, u.email = email) →
      register db now body = (.http 400 (jmsg "Email already registered"), db)) ∧
    ((∀ u ∈ db.users, u.email ≠ email) → (∃ u ∈ db.users, u.username = username) →
      register db now body = (.http 400 (jmsg "Username already taken"), db)) ∧
    ((∀ u ∈ db.users, u.email ≠ email) → (∀ u ∈ db.users, u.username ≠ username) →
      register db now body =
        (.http 201 (.obj [("message", .str "User registered successfully"),
                          ("token", .tok (newUser db email username password body.is_admin).id
                                         (now + 24 * 3600)),
                          ("user", userJson (newUser db email username password body.is_admin))]),
         { db with users := db.users ++ [newUser db email username password body.is_admin] }) ∧
      (newUser db email username password body.is_admin).password = bcryptHash password ∧
      hasKey (userJson (newUser db email username password body.is_admin)) "password" = false ∧
      hasKey (userJson (newUser db email username password body.is_admin)) "password_hash"
        = false) := by
  rcases body with ⟨e, un, pw, adm⟩
  cases he
  cases hu
  cases hp
  refine ⟨?_, ?_, ?_⟩
  · rintro ⟨u, humem, hue⟩
    have hsome : (db.users.find? (fun v => v.email == email)).isSome :=
      List.find?_isSome.mpr ⟨u, humem, by simp [hue]⟩
    simp [register, hsome]
  · intro hno
    rintro ⟨u, humem, huu⟩
    have hfe : db.users.find? (fun v => v.email == email) = none :=
      List.find?_eq_none.mpr (fun x hx => by simp [hno x hx])
    have hsome : (db.users.find? (fun v => v.username == username)).isSome :=
      List.find?_isSome.mpr ⟨u, humem, by simp [huu]⟩
    simp [register, hfe, hsome]
  · intro hne hnu
    exact ⟨register_success db now email username password adm hne hnu, rfl, rfl, rfl⟩

/-- Witness for C5: on the fixture state, registering with the admin's
email is answered 400 and leaves the state unchanged, while a fresh
registration is answered 201 with a password-free user object. -/
theorem register_contract_witness :
    (register dbEx 0 ⟨some "admin@eco.com", some "zed", some "pw", none⟩ =
      (.http 400 (jmsg "Email already registered"), dbEx)) ∧
    (register dbEx 0 ⟨some "carol@eco.com", some "carol", some "pw", none⟩ =
      (.http 201 (.obj [("message", .str "User registered successfully"),
                        ("token", .tok (newUser dbEx "carol@eco.com" "carol" "pw" none).id
                                       (0 + 24 * 3600)),
                        ("user", userJson (newUser dbEx "carol@eco.com" "carol" "pw" none))]),
       { dbEx with users := dbEx.users ++ [newUser dbEx "carol@eco.com" "carol" "pw" none] }) ∧
      (newUser dbEx "carol@eco.com" "carol" "pw" none).password = bcryptHash "pw" ∧
      hasKey (userJson (newUser dbEx "carol@eco.com" "carol" "pw" none)) "password" = false ∧
      hasKey (userJson (newUser dbEx "carol@eco.com" "carol" "pw" none)) "password_hash"
        = false) := by
  constructor
  · exact (register_contract dbEx 0 ⟨some "admin@eco.com", some "zed", some "pw", none⟩
      "admin@eco.com" "zed" "pw" rfl rfl rfl).1 ⟨adminUser, by decide, rfl⟩
  · exact (register_contract dbEx 0 ⟨some "carol@eco.com", some "carol", some "pw", none⟩
      "carol@eco.com" "carol" "pw" rfl rfl rfl).2.2 (by decide) (by decide)

/-!
C6.  "For every request to a body-accepting endpoint (register, login,
create_product, create_category, create_blog_post, create_comment)
whose JSON body omits a required field, the response status is 400."

The claim fails on the code: only create_comment checks its field (with
`data.get`) and answers 400.  Every other handler reads required fields
with `data['k']`, so an omitted field raises an uncaught KeyError and
Flask answers 500.
-/

/-- C6 counterexample: a register request without an email field makes
the handler raise (HTTP 500), not 400. -/
theorem register_missing_field_500 :
    register dbEx 0 ⟨none, some "dora", some "pw", none⟩ = (.err, dbEx) ∧
    statusOf (register dbEx 0 ⟨none, some "dora", some "pw", none⟩).1 = 500 ∧
    statusOf (register dbEx 0 ⟨none, some "dora", some "pw", none⟩).1 ≠ 400 :=
  ⟨rfl, rfl, by decide⟩

/-- C6 (amended): a missing required field is not validated: register,
login, create_product, create_category and create_blog_post raise an
uncaught KeyError on their first required field (HTTP 500, state
unchanged; login only reads the password after the email matched);
only create_comment checks its content field and answers 400. -/
theorem missing_required_field (db : DB) (now pid : Nat) (u : Option User)
    (rb : RegisterBody) (lb : LoginBody) (pb : ProductBody) (cb : CategoryBody)
    (bb : BlogPostBody) (mb : CommentBody)
    (h1 : rb.email = none) (h2 : lb.email = none) (h3 : pb.name = none)
    (h4 : cb.name = none) (h5 : bb.title = none) (h6 : mb.content = none) :
    register db now rb = (.err, db) ∧
    login db now lb = (.err, db) ∧
    create_product db pb = (.err, db) ∧
    create_category db cb = (.err, db) ∧
    create_blog_post db bb = (.err, db) ∧
    create_comment db now u pid mb = (.http 400 (jmsg "Comment content is required"), db) := by
  refine ⟨?_, ?_, ?_, ?_, ?_, ?_⟩
  · simp [register, h1]
  · simp [login, h2]
  · simp [create_product, h3]
  · simp [create_category, h4]
  · simp [create_blog_post, h5]
  · simp [create_comment, h6]

/-- Witness for C6 (amended): concrete empty-bodied requests on the
fixture state. -/
theorem missing_required_field_witness :
    register dbEx 0 ⟨none, none, none, none⟩ = (.err, dbEx) ∧
    login dbEx 0 ⟨none, none⟩ = (.err, dbEx) ∧
    create_product dbEx ⟨none, none, none, none, none, none⟩ = (.err, dbEx) ∧
    create_category dbEx ⟨none⟩ = (.err, dbEx) ∧
    create_blog_post dbEx ⟨none, none, none, none, none, none, none, none, none⟩ =
      (.err, dbEx) ∧
    create_comment dbEx 0 none 1 ⟨none⟩ =
      (.http 400 (jmsg "Comment content is required"), dbEx) :=
  missing_required_field dbEx 0 1 none _ _ _ _ _ _ rfl rfl rfl rfl rfl rfl

/-!
C7.  "For every value X and every product table state,
GET /products?category_id=X returns status 200 with exactly the
products whose category_id equals X (each joined with its category's
name), including the empty array when no product matches; with no
category_id parameter it returns all products."

The claim fails for X = "": `request.args.get` yields the empty string
for `?category_id=`, and `if category_id:` treats it as absent, so the
handler returns ALL products although no product's category_id equals
the empty string.  For every nonempty (numeric) X the claim holds.
-/

/-- C7 counterexample: with `?category_id=` (empty value) the fixture
state answers the full, nonempty product list even though no product
has a category_id rendering to the empty string. -/
theorem get_products_empty_param :
    get_products dbEx (some "") =
      .http 200 (.arr [(productJson dbEx sofa).getD .null]) ∧
    dbEx.products.filter (fun p => toString p.category_id == "") = [] ∧
    dbEx.products ≠ [] :=
  ⟨rfl, rfl, by decide⟩

/-- C7 (amended): for every nonempty numeric X,
GET /products?category_id=X answers 200 with exactly the products whose
category_id equals X, each serialized with its category's name
(including the empty array when no product matches); with no
category_id parameter (or an empty one) it answers all products. -/
theorem get_products_contract (db : DB) (s : String) (n : Nat)
    (hs : s ≠ "") (hn : strToNat? s = some n)
    (hfk : ∀ p ∈ db.products,
      (db.categories.find? (fun c => c.id == p.category_id)).isSome) :
    get_products db (some s) =
      .http 200 (.arr ((db.products.filter (fun p => p.category_id == n)).map
        (fun p => (productJson db p).getD .null))) ∧
    (∀ p, p ∈ db.products.filter (fun p => p.category_id == n) ↔
      p ∈ db.products ∧ p.category_id = n) ∧
    get_products db none =
      .http 200 (.arr (db.products.map (fun p => (productJson db p).getD .null))) := by
  have hall : ∀ l : List Product, (∀ p ∈ l, p ∈ db.products) →
      optionMapM (productJson db) l =
        some (l.map (fun p => (productJson db p).getD .null)) := by
    intro l hl
    apply optionMapM_eq_map
    intro p hp
    simpa [productJson] using hfk p (hl p hp)
  refine ⟨?_, ?_, ?_⟩
  · have hsel : selectedProducts db (some s) =
        some (db.products.filter (fun p => p.category_id == n)) := by
      simp only [selectedProducts, if_neg hs, hn]
    simp only [get_products, hsel, productsResp,
      hall _ (fun p hp => (List.mem_filter.mp hp).1)]
  · intro p
    simp [List.mem_filter]
  · simp only [get_products, selectedProducts, productsResp, hall _ (fun p hp => hp)]

/-- Witness for C7 (amended) on the fixture state with X = "1". -/
theorem get_products_contract_witness :
    get_products dbEx (some "1") =
      .http 200 (.arr ((dbEx.products.filter (fun p => p.category_id == 1)).map
        (fun p => (productJson dbEx p).getD .null))) ∧
    (sofa ∈ dbEx.products.filter (fun p => p.category_id == 1) ↔
      sofa ∈ dbEx.products ∧ sofa.category_id = 1) ∧
    get_products dbEx none =
      .http 200 (.arr (dbEx.products.map (fun p => (productJson dbEx p).getD .null))) := by
  have h := get_products_contract dbEx "1" 1 (by decide) rfl (by decide)
  exact ⟨h.1, h.2.1 sofa, h.2.2⟩

/-- Totality of the lexicographic comparison. -/
theorem lexLe_total : ∀ (x y : List Char), lexLe x y = true ∨ lexLe y x = true := by
  intro x
  induction x with
  | nil => intro y; exact Or.inl rfl
  | cons a as ih =>
    intro y
    cases y with
    | nil => exact Or.inr rfl
    | cons b bs =>
      simp only [lexLe]
      by_cases hab : a.toNat < b.toNat
      · exact Or.inl (by rw [if_pos hab])
      · by_cases hba : b.toNat < a.toNat
        · exact Or.inr (by rw [if_pos hba])
        · rcases ih bs with h | h
          · exact Or.inl (by rw [if_neg hab, if_neg hba]; exact h)
          · exact Or.inr (by rw [if_neg hba, if_neg hab]; exact h)

/-- Transitivity of the lexicographic comparison. -/
theorem lexLe_trans : ∀ (x y z : List Char),
    lexLe x y = true → lexLe y z = true → lexLe x z = true := by
  intro x
  induction x with
  | nil => intro y z h1 h2; rfl
  | cons a as ih =>
    intro y z hxy hyz
    cases y with
    | nil => simp [lexLe] at hxy
    | cons b bs =>
      cases z with
      | nil => simp [lexLe] at hyz
      | cons c cs =>
        simp only [lexLe] at hxy hyz ⊢
        by_cases hab : a.toNat < b.toNat
        · by_cases hbc : b.toNat < c.toNat
          · rw [if_pos (Nat.lt_trans hab hbc)]
          · by_cases hcb : c.toNat < b.toNat
            · rw [if_neg hbc, if_pos hcb] at hyz
              simp at hyz
            · have hbc' : b.toNat = c.toNat :=
                Nat.le_antisymm (Nat.not_lt.mp hcb) (Nat.not_lt.mp hbc)
              rw [if_pos (hbc' ▸ hab)]
        · by_cases hba : b.toNat < a.toNat
          · rw [if_neg hab, if_pos hba] at hxy
            simp at hxy
          · have hab' : a.toNat = b.toNat :=
              Nat.le_antisymm (Nat.not_lt.mp hba) (Nat.not_lt.mp hab)
            rw [if_neg hab, if_neg hba] at hxy
            by_cases hbc : b.toNat < c.toNat
            · rw [if_pos (by omega)]
            · by_cases hcb : c.toNat < b.toNat
              · rw [if_neg hbc, if_pos hcb] at hyz
                simp at hyz
              · rw [if_neg hbc, if_neg hcb] at hyz
                rw [if_neg (by omega), if_neg (by omega)]
                exact ih bs cs hxy hyz

/-!
C8.  "For every blog post table state and every optional category and
tag query parameters, GET /blog/posts returns exactly the posts whose
category equals the given category (if supplied) and whose tag list
contains the given tag (if supplied), ordered by the date string
descending; in particular, for any two returned posts, the one with the
lexicographically larger ISO date string appears first."

The ordering part holds, but the filter part fails for a supplied empty
value: `?category=` yields the empty string, `if category:` treats it
as absent, and the handler returns posts of every category although
none has category "".  For nonempty parameters the claim holds.
-/

/-- C8 counterexample: with `?category=` (empty value) the fixture
state answers both posts (category "Lifestyle") although no post's
category equals the empty string. -/
theorem blog_empty_category_param :
    get_blog_posts dbEx (some "") none =
      .http 200 (.arr [postJson post20, postJson post10]) ∧
    dbEx.blog_posts.filter (fun p => p.category == "") = [] ∧
    dbEx.blog_posts ≠ [] :=
  ⟨rfl, rfl, by decide⟩

/-- C8 (amended): GET /blog/posts answers 200 with the selected posts
sorted by date string descending (`Sorted dateGe` is pairwise: of any
two returned posts the one with the larger ISO date string appears
first); the selection is a permutation-stable sort of `blogFilter`, and
for nonempty supplied parameters membership in the selection is exactly
category equality and/or tag membership (an empty supplied value is
treated as absent). -/
theorem blog_posts_contract (db : DB) (category tag : Option String) :
    get_blog_posts db category tag =
      .http 200 (.arr ((List.insertionSort dateGe (blogFilter db category tag)).map postJson)) ∧
    List.Sorted dateGe (List.insertionSort dateGe (blogFilter db category tag)) ∧
    List.Perm (List.insertionSort dateGe (blogFilter db category tag))
      (blogFilter db category tag) ∧
    (category = none → tag = none → blogFilter db category tag = db.blog_posts) ∧
    (∀ c, category = some c → c ≠ "" → tag = none →
      ∀ p, p ∈ blogFilter db category tag ↔ p ∈ db.blog_posts ∧ p.category = c) ∧
    (∀ t, tag = some t → t ≠ "" → category = none →
      ∀ p, p ∈ blogFilter db category tag ↔ p ∈ db.blog_posts ∧ t ∈ p.tags) ∧
    (∀ c t, category = some c → c ≠ "" → tag = some t → t ≠ "" →
      ∀ p, p ∈ blogFilter db category tag ↔
        p ∈ db.blog_posts ∧ p.category = c ∧ t ∈ p.tags) := by
  haveI : IsTotal BlogPost dateGe := ⟨fun a b => lexLe_total b.date.data a.date.data⟩
  haveI : IsTrans BlogPost dateGe :=
    ⟨fun _ _ _ hab hbc => lexLe_trans _ _ _ hbc hab⟩
  refine ⟨rfl, List.sorted_insertionSort dateGe _, List.perm_insertionSort dateGe _,
    ?_, ?_, ?_, ?_⟩
  · rintro rfl rfl
    rfl
  · rintro c rfl hc rfl p
    simp [blogFilter, hc, List.mem_filter]
  · rintro t rfl ht rfl p
    simp [blogFilter, ht, List.mem_filter]
  · rintro c t rfl hc rfl ht p
    simp [blogFilter, hc, ht, List.mem_filter]
    tauto

/-- Witness for C8 on the fixture state with category "Lifestyle". -/
theorem blog_posts_contract_witness :
    get_blog_posts dbEx (some "Lifestyle") none =
      .http 200 (.arr ((List.insertionSort dateGe
        (blogFilter dbEx (some "Lifestyle") none)).map postJson)) ∧
    List.Sorted dateGe (List.insertionSort dateGe (blogFilter dbEx (some "Lifestyle") none)) ∧
    (post20 ∈ blogFilter dbEx (some "Lifestyle") none ↔
      post20 ∈ dbEx.blog_posts ∧ post20.category = "Lifestyle") := by
  have h := blog_posts_contract dbEx (some "Lifestyle") none
  exact ⟨h.1, h.2.1, h.2.2.2.2.1 "Lifestyle" rfl (by decide) rfl post20⟩

/-!
C9.  "Every Product row reachable through the exposed operations has a
non-negative price and a non-negative integer stock_quantity; in
particular, POST /products never creates a product with negative price
or negative stock_quantity."

The claim fails on the code: `create_product` performs no range
validation, so an admin request with negative values stores them
verbatim and answers 201.
-/

/-- C9 counterexample: an authorized POST /products with price -5 and
stock_quantity -3 on the fixture state answers 201 and stores a product
row with exactly those negative values. -/
theorem create_product_negative_values :
    (route_create_product dbEx (.bearer (.valid adminTok)) 0
        ⟨some "Broken Chair", some "d", some (-5), some (-3), none, some 1⟩).2.products
      = dbEx.products ++
        [{ id := 2, name := "Broken Chair", description := "d", price := -5,
           stock_quantity := -3, image_url := none, category_id := 1 }] ∧
    statusOf (route_create_product dbEx (.bearer (.valid adminTok)) 0
        ⟨some "Broken Chair", some "d", some (-5), some (-3), none, some 1⟩).1 = 201 ∧
    (-5 : Int) < 0 ∧ (-3 : Int) < 0 :=
  ⟨rfl, rfl, by decide, by decide⟩

/-- C9 (amended): the only validation on POST /products is field
presence and the category foreign key: the created row stores price and
stock_quantity exactly as submitted, negative values included, and the
handler answers 201. -/
theorem create_product_no_validation (db : DB) (body : ProductBody)
    (name description : String) (price stock : Int) (cid : Nat)
    (hn : body.name = some name) (hd : body.description = some description)
    (hp : body.price = some price) (hs : body.stock_quantity = some stock)
    (hc : body.category_id = some cid)
    (hcat : (db.categories.find? (fun c => c.id == cid)).isSome) :
    ∃ p : Product,
      create_product db body =
        (.http 201 (.obj [("message", .str "Product created successfully"),
                          ("product", productCreatedJson p)]),
         { db with products := db.products ++ [p] }) ∧
      p.price = price ∧ p.stock_quantity = stock := by
  rcases body with ⟨bn, bd, bp, bs, bi, bc⟩
  cases hn
  cases hd
  cases hp
  cases hs
  cases hc
  refine ⟨{ id := nextId (db.products.map (fun q => q.id)), name := name,
            description := description, price := price, stock_quantity := stock,
            image_url := bi, category_id := cid }, ?_, rfl, rfl⟩
  simp [create_product, hcat]

/-- Witness for C9 (amended): the concrete negative-valued request. -/
theorem create_product_no_validation_witness :
    ∃ p : Product,
      create_product dbEx ⟨some "Broken Chair", some "d", some (-5), some (-3), none, some 1⟩ =
        (.http 201 (.obj [("message", .str "Product created successfully"),
                          ("product", productCreatedJson p)]),
         { dbEx with products := dbEx.products ++ [p] }) ∧
      p.price = -5 ∧ p.stock_quantity = -3 :=
  create_product_no_validation dbEx
    ⟨some "Broken Chair", some "d", some (-5), some (-3), none, some 1⟩
    "Broken Chair" "d" (-5) (-3) 1 rfl rfl rfl rfl rfl (by decide)

/-!
C10.  "For every exposed endpoint and every starting state, handling
the request never modifies or removes any existing User, Category,
Product, BlogPost, or Comment row: each request either leaves all
stored rows unchanged or only adds new rows."

All fourteen routes either return the state untouched or append exactly
one row to one table (`populate_db`, which does delete, is the
out-of-scope seeding routine and not an exposed endpoint).
-/

/-- C10: every exposed route maps any starting state to an extension of
it: every existing row of every table survives unchanged and in place,
and at most new rows are appended. -/
theorem routes_only_insert (db : DB) (now : Nat) (auth : AuthHeader)
    (rb : RegisterBody) (lb : LoginBody) (pb : ProductBody) (cb : CategoryBody)
    (bb : BlogPostBody) (mb : CommentBody) (cid : Option String)
    (cat tg : Option String) (pid qid rid sid : Nat) :
    dbExtends db (route_register db now rb).2 ∧
    dbExtends db (route_login db now lb).2 ∧
    dbExtends db (route_get_products db cid).2 ∧
    dbExtends db (route_get_product db pid).2 ∧
    dbExtends db (route_create_product db auth now pb).2 ∧
    dbExtends db (route_get_categories db).2 ∧
    dbExtends db (route_create_category db auth now cb).2 ∧
    dbExtends db (route_get_blog_posts db cat tg).2 ∧
    dbExtends db (route_get_blog_post db qid).2 ∧
    dbExtends db (route_create_blog_post db auth now bb).2 ∧
    dbExtends db (route_get_blog_categories db).2 ∧
    dbExtends db (route_get_blog_tags db).2 ∧
    dbExtends db (route_get_post_comments db rid).2 ∧
    dbExtends db (route_create_comment db auth now sid mb).2 := by
  refine ⟨?_, ?_, ?_, ?_, ?_, ?_, ?_, ?_, ?_, ?_, ?_, ?_, ?_, ?_⟩
  · unfold route_register register
    repeat' split
    all_goals first
      | exact dbExtends_refl db
      | exact dbExtends_addUser db _
  · unfold route_login login
    repeat' split
    all_goals exact dbExtends_refl db
  · exact dbExtends_refl db
  · exact dbExtends_refl db
  · unfold route_create_product create_product
    repeat' split
    all_goals first
      | exact dbExtends_refl db
      | exact dbExtends_addProduct db _
  · exact dbExtends_refl db
  · unfold route_create_category create_category
    repeat' split
    all_goals first
      | exact dbExtends_refl db
      | exact dbExtends_addCategory db _
  · exact dbExtends_refl db
  · exact dbExtends_refl db
  · unfold route_create_blog_post create_blog_post
    repeat' split
    all_goals first
      | exact dbExtends_refl db
      | exact dbExtends_addPost db _
  · exact dbExtends_refl db
  · exact dbExtends_refl db
  · exact dbExtends_refl db
  · unfold route_create_comment create_comment
    repeat' split
    all_goals first
      | exact dbExtends_refl db
      | exact dbExtends_addComment db _

end EcoServer
